import Mathlib

/-!
Shallow embedding of the Flappy Bird clone (src/js/game.js, src/js/pipe.js,
src/js/menu.js which also contains the Bird class).  JS numbers are modelled
as exact rationals (`ℚ`); `Math.random()` draws are threaded explicitly as a
rational parameter `r` (the source uses one draw per Pipe construction);
DOM/canvas rendering is ignored.  Field and method names follow the source.
-/

/-- An axis-aligned box `{x, y, width, height}` as used by `getBounds` in
bird.js / pipe.js and by `Game.rectsIntersect`. -/
structure Rect where
  x : ℚ
  y : ℚ
  width : ℚ
  height : ℚ
deriving Repr, DecidableEq

/-- `Game.rectsIntersect` (game.js lines 201-206), verbatim:
`r1.x < r2.x + r2.width && r1.x + r1.width > r2.x &&
 r1.y < r2.y + r2.height && r1.y + r1.height > r2.y`. -/
def rectsIntersect (rect1 rect2 : Rect) : Bool :=
  decide (rect1.x < rect2.x + rect2.width) &&
  decide (rect1.x + rect1.width > rect2.x) &&
  decide (rect1.y < rect2.y + rect2.height) &&
  decide (rect1.y + rect1.height > rect2.y)

/-- The Bird class state (menu.js lines 92-114 of the concatenated file:
bird.js constructor).  The canvas context is dropped; all numeric fields
are kept. -/
structure Bird where
  canvasWidth : ℚ
  canvasHeight : ℚ
  width : ℚ
  height : ℚ
  x : ℚ
  y : ℚ
  velocity : ℚ
  gravity : ℚ
  jumpStrength : ℚ
deriving Repr, DecidableEq

namespace Bird

/-- `new Bird(ctx, canvasWidth, canvasHeight)`: width 30, height 20, x 50,
y = canvasHeight / 2, velocity 0, gravity 0.2, jumpStrength -7. -/
def make (canvasWidth canvasHeight : ℚ) : Bird :=
  { canvasWidth := canvasWidth
    canvasHeight := canvasHeight
    width := 30
    height := 20
    x := 50
    y := canvasHeight / 2
    velocity := 0
    gravity := 1 / 5
    jumpStrength := -7 }

/-- `Bird.update()`: velocity += gravity; y += velocity; clamp to the floor
(`y + height > canvasHeight`) and then to the ceiling (`y < 0`), zeroing
velocity on each clamp.  The second test reads the possibly already clamped
`y`, exactly as the source does. -/
def update (b : Bird) : Bird :=
  let velocity := b.velocity + b.gravity
  let y := b.y + velocity
  let p1 : ℚ × ℚ :=
    if y + b.height > b.canvasHeight then (b.canvasHeight - b.height, 0)
    else (y, velocity)
  let p2 : ℚ × ℚ := if p1.1 < 0 then (0, 0) else p1
  { b with y := p2.1, velocity := p2.2 }

/-- `Bird.flap()`: velocity = jumpStrength. -/
def flap (b : Bird) : Bird :=
  { b with velocity := b.jumpStrength }

/-- `Bird.reset()`: y = canvasHeight / 2, velocity = 0. -/
def reset (b : Bird) : Bird :=
  { b with y := b.canvasHeight / 2, velocity := 0 }

/-- `Bird.getBounds()`. -/
def getBounds (b : Bird) : Rect :=
  { x := b.x, y := b.y, width := b.width, height := b.height }

end Bird

/-- The optional `settings` argument of the Pipe constructor
(pipe.js line 15), default `{ pipeSpeed: 1.45, pipeVerticalGap: 250 }`. -/
structure PipeSettings where
  pipeSpeed : ℚ
  pipeVerticalGap : ℚ
deriving Repr, DecidableEq

/-- The default settings object of the Pipe constructor. -/
def defaultSettings : PipeSettings :=
  { pipeSpeed := 29 / 20, pipeVerticalGap := 250 }

/-- The Pipe class state (pipe.js). -/
structure Pipe where
  canvasWidth : ℚ
  canvasHeight : ℚ
  width : ℚ
  x : ℚ
  speed : ℚ
  gap : ℚ
  passed : Bool
  topHeight : ℚ
  bottomY : ℚ
  bottomHeight : ℚ
deriving Repr, DecidableEq

namespace Pipe

/-- `new Pipe(ctx, canvasWidth, canvasHeight, x, settings)` with the random
draw `r` standing for the one `Math.random()` call:
`topHeight = Math.floor(r * (canvasHeight / 3 - 50)) + 60`,
`bottomY = topHeight + gap`, `bottomHeight = canvasHeight - bottomY`. -/
def make (canvasWidth canvasHeight x : ℚ) (r : ℚ) (settings : PipeSettings) :
    Pipe :=
  let topHeight : ℚ := (⌊r * (canvasHeight / 3 - 50)⌋ : ℤ) + 60
  let bottomY : ℚ := topHeight + settings.pipeVerticalGap
  { canvasWidth := canvasWidth
    canvasHeight := canvasHeight
    width := 72
    x := x
    speed := settings.pipeSpeed
    gap := settings.pipeVerticalGap
    passed := false
    topHeight := topHeight
    bottomY := bottomY
    bottomHeight := canvasHeight - bottomY }

/-- `Pipe.update()`: x -= speed. -/
def update (p : Pipe) : Pipe :=
  { p with x := p.x - p.speed }

/-- `Pipe.isOffScreen()`: `x + width < 0`. -/
def isOffScreen (p : Pipe) : Bool :=
  decide (p.x + p.width < 0)

/-- `Pipe.isPassed(birdX)`: one-shot check, returning the boolean result and
the (possibly mutated) pipe. -/
def isPassed (p : Pipe) (birdX : ℚ) : Bool × Pipe :=
  if !p.passed && decide (birdX > p.x + p.width) then
    (true, { p with passed := true })
  else
    (false, p)

/-- `Pipe.getBounds()`: top segment from y = 0, bottom segment from
`bottomY`. -/
def getBounds (p : Pipe) : List Rect :=
  [ { x := p.x, y := 0, width := p.width, height := p.topHeight },
    { x := p.x, y := p.bottomY, width := p.width, height := p.bottomHeight } ]

end Pipe

/-- The scoring loop of `Game.update` (game.js lines 157-163):
`this.pipes.forEach(pipe => { if (pipe.isPassed(this.bird.x)) this.score++ })`
— each pipe's one-shot `isPassed` is called in order and the number of true
results is the score increment.  Returns the mutated pipes and that count. -/
def scorePipes : List Pipe → ℚ → List Pipe × Nat
  | [], _ => ([], 0)
  | p :: ps, birdX =>
    let fp := p.isPassed birdX
    let rest := scorePipes ps birdX
    (fp.2 :: rest.1, (if fp.1 then 1 else 0) + rest.2)

/-- The Game class state (game.js).  DOM elements, the rendering context and
the Menu object are dropped; all simulation fields are kept. -/
structure Game where
  canvasWidth : ℚ
  canvasHeight : ℚ
  bird : Bird
  pipes : List Pipe
  pipeGap : Nat
  frameCount : Nat
  score : Nat
  isRunning : Bool
  isGameOver : Bool
deriving Repr, DecidableEq

namespace Game

/-- The Game constructor's simulation fields (game.js lines 16-58):
fresh bird, no pipes, pipeGap 300, frameCount 0, score 0, not running,
not game over. -/
def make (canvasWidth canvasHeight : ℚ) : Game :=
  { canvasWidth := canvasWidth
    canvasHeight := canvasHeight
    bird := Bird.make canvasWidth canvasHeight
    pipes := []
    pipeGap := 300
    frameCount := 0
    score := 0
    isRunning := false
    isGameOver := false }

/-- `Game.spawnPipe()` (game.js lines 131-134): pushes
`new Pipe(ctx, canvasWidth, canvasHeight, canvasWidth)` — default settings —
with `r` the `Math.random()` draw made inside the Pipe constructor. -/
def spawnPipe (g : Game) (r : ℚ) : Game :=
  { g with pipes :=
      g.pipes ++ [Pipe.make g.canvasWidth g.canvasHeight g.canvasWidth r
        defaultSettings] }

/-- `Game.startGame()` (game.js lines 107-126), simulation part: reset bird,
clear pipes, score 0, running, not game over, frameCount 0, then spawn the
first pipe (random draw `r`). -/
def startGame (g : Game) (r : ℚ) : Game :=
  Game.spawnPipe
    { g with bird := g.bird.reset
             pipes := []
             score := 0
             isRunning := true
             isGameOver := false
             frameCount := 0 } r

/-- `Game.checkCollisions()` (game.js lines 175-193): floor/ceiling test
`bird.y + bird.height >= canvasHeight || bird.y <= 0`, then bird-vs-pipe
rectangle tests over every pipe's two bounds. -/
def checkCollisions (g : Game) : Bool :=
  if g.bird.y + g.bird.height ≥ g.canvasHeight ∨ g.bird.y ≤ 0 then true
  else
    g.pipes.any fun p =>
      (p.getBounds).any fun pb => rectsIntersect g.bird.getBounds pb

/-- `Game.gameOver()` (game.js lines 249-255), simulation part. -/
def gameOver (g : Game) : Game :=
  { g with isRunning := false, isGameOver := true }

/-- Pipes after the move and off-screen-filter steps of `Game.update`
(game.js lines 146-149). -/
def movedPipes (g : Game) : List Pipe :=
  (g.pipes.map Pipe.update).filter fun p => !p.isOffScreen

/-- Pipes after move, filter and the modulo spawn step of `Game.update`
(game.js lines 152-155); the counter has already been incremented when the
modulo test runs. -/
def spawnedPipes (g : Game) (r : ℚ) : List Pipe :=
  if (g.frameCount + 1) % g.pipeGap = 0 then
    g.movedPipes ++ [Pipe.make g.canvasWidth g.canvasHeight g.canvasWidth r
      defaultSettings]
  else g.movedPipes

/-- `Game.update()` (game.js lines 139-169): early return unless
running-and-not-over; bird update; pipe move; off-screen filter;
frameCount++ and modulo spawn; scoring loop; collision check and possible
game over.  `r` is the random draw used if a pipe spawns this tick. -/
def update (g : Game) (r : ℚ) : Game :=
  if !g.isRunning || g.isGameOver then g
  else
    let bird := g.bird.update
    let pipes := g.spawnedPipes r
    let sc := scorePipes pipes bird.x
    let g2 : Game :=
      { g with bird := bird
               pipes := sc.1
               frameCount := g.frameCount + 1
               score := g.score + sc.2 }
    if g2.checkCollisions then g2.gameOver else g2

end Game

/-- One event in a Pipe's lifetime: a leftward move (`Pipe.update`, one per
tick) or a scoring query (`Pipe.isPassed birdX`, one per tick while the pipe
survives). -/
inductive PipeOp where
  | move : PipeOp
  | query : ℚ → PipeOp
deriving Repr, DecidableEq

/-- Runs a sequence of lifetime events against a pipe, collecting the boolean
results of the `isPassed` queries in order. -/
def runOps : Pipe → List PipeOp → List Bool × Pipe
  | p, [] => ([], p)
  | p, PipeOp.move :: ops => runOps p.update ops
  | p, PipeOp.query birdX :: ops =>
    let fp := p.isPassed birdX
    let rest := runOps fp.2 ops
    (fp.1 :: rest.1, rest.2)

/-- Iterates `Game.update` over a list of per-tick random draws. -/
def iterUpdate (g : Game) : List ℚ → Game
  | [] => g
  | r :: rs => iterUpdate (g.update r) rs

/-- Every pipe strictly left of the bird (trailing edge before the bird's x)
has its one-shot `passed` flag set.  `Game.update` re-establishes this each
running tick because the scoring loop runs after moves, filtering and
spawning. -/
def passedInv (g : Game) : Prop :=
  ∀ p ∈ g.pipes, p.x + p.width < g.bird.x → p.passed = true

/-- A concrete started game on the 400x700 canvas, used to instantiate
universally quantified theorems. -/
def testGame : Game := Game.startGame (Game.make 400 700) (1 / 2)

/-- A concrete running game whose tick counter sits one tick before the first
modulo spawn. -/
def testGame299 : Game :=
  { Game.make 400 700 with isRunning := true, frameCount := 299 }

/-- A concrete pipe far off the left edge with its pass flag set, as the
off-screen filter would be about to remove it. -/
def testGonePipe : Pipe :=
  { Pipe.make 400 700 (-100) 0 defaultSettings with passed := true }

/-- A concrete running game holding `testGonePipe`. -/
def testGame10 : Game :=
  { Game.make 400 700 with isRunning := true, pipes := [testGonePipe] }

/-- A concrete bird one tick above the floor: its next update clamps. -/
def testFloorBird : Bird := { Bird.make 400 700 with y := 690 }

/-- A concrete game holding the already-updated (clamped) `testFloorBird`. -/
def testGame8 : Game := { Game.make 400 700 with bird := testFloorBird.update }

theorem Pipe.isPassed_of_passed (p : Pipe) (bx : ℚ) (hp : p.passed = true) :
    p.isPassed bx = (false, p) := by
  simp [Pipe.isPassed, hp]

theorem Pipe.isPassed_fire (p : Pipe) (bx : ℚ) (hp : p.passed = false)
    (hc : p.x + p.width < bx) :
    p.isPassed bx = (true, { p with passed := true }) := by
  simp [Pipe.isPassed, hp, hc]

theorem Pipe.isPassed_nofire (p : Pipe) (bx : ℚ)
    (hc : ¬ p.x + p.width < bx) :
    p.isPassed bx = (false, p) := by
  simp [Pipe.isPassed, hc]

theorem Bird.update_x (b : Bird) : (b.update).x = b.x := rfl

theorem Bird.update_height (b : Bird) : (b.update).height = b.height := rfl

theorem Bird.update_canvasHeight (b : Bird) :
    (b.update).canvasHeight = b.canvasHeight := rfl

/-- C9.  `flap()` overwrites the velocity with exactly `jumpStrength` and
leaves every other field of the bird (position, size, constants) unchanged. -/
theorem claim_C9_flap_overwrites_velocity (b : Bird) :
    (b.flap).velocity = b.jumpStrength ∧ (b.flap).x = b.x ∧
    (b.flap).y = b.y ∧ (b.flap).width = b.width ∧
    (b.flap).height = b.height ∧ (b.flap).gravity = b.gravity ∧
    (b.flap).jumpStrength = b.jumpStrength :=
  ⟨rfl, rfl, rfl, rfl, rfl, rfl, rfl⟩

/-- C5.  `rectsIntersect` is commutative, and it uses half-open semantics:
boxes sharing only a vertical or horizontal edge do not intersect. -/
theorem claim_C5_rectsIntersect_comm_halfopen (a b : Rect) :
    rectsIntersect a b = rectsIntersect b a ∧
    (a.x + a.width = b.x → rectsIntersect a b = false) ∧
    (a.y + a.height = b.y → rectsIntersect a b = false) := by
  refine ⟨?_, ?_, ?_⟩
  · simp only [rectsIntersect, gt_iff_lt]
    ac_rfl
  · intro h
    simp [rectsIntersect, h]
  · intro h
    simp [rectsIntersect, h]

/-- C5 witness: the commutativity and vertical-edge parts at concrete boxes
sharing the edge x = 10. -/
theorem claim_C5_witness :
    rectsIntersect ⟨0, 0, 10, 10⟩ ⟨10, 0, 5, 5⟩ =
      rectsIntersect ⟨10, 0, 5, 5⟩ ⟨0, 0, 10, 10⟩ ∧
    rectsIntersect ⟨0, 0, 10, 10⟩ ⟨10, 0, 5, 5⟩ = false :=
  ⟨(claim_C5_rectsIntersect_comm_halfopen ⟨0, 0, 10, 10⟩ ⟨10, 0, 5, 5⟩).1,
   (claim_C5_rectsIntersect_comm_halfopen ⟨0, 0, 10, 10⟩ ⟨10, 0, 5, 5⟩).2.1
     (by norm_num)⟩

/-- C7.  A bird exactly at the ceiling (y = 0) with zero velocity is not
clamped by one update: it moves down to y = gravity, because only y < 0
triggers the ceiling clamp. -/
theorem claim_C7_ceiling_not_clamped_at_zero (b : Bird)
    (hy : b.y = 0) (hv : b.velocity = 0) (hg : 0 < b.gravity)
    (hfit : b.gravity + b.height ≤ b.canvasHeight) :
    (b.update).y = b.gravity := by
  simp only [Bird.update, hy, hv, zero_add]
  split_ifs with h1 h2 h3 <;> simp_all <;> linarith

/-- C7 witness: the game's actual bird placed at the ceiling moves to
y = 1/5 after one tick. -/
theorem claim_C7_witness :
    (({ Bird.make 400 700 with y := 0 } : Bird).update).y =
      ({ Bird.make 400 700 with y := 0 } : Bird).gravity :=
  claim_C7_ceiling_not_clamped_at_zero { Bird.make 400 700 with y := 0 }
    rfl rfl (by norm_num [Bird.make]) (by norm_num [Bird.make])

/-- C2.  For a bird whose height fits the world, one update leaves
`0 ≤ y ≤ canvasHeight − height`; and whenever a clamp fires (the freshly
integrated position would leave the world below or above), the resulting
velocity is zero. -/
theorem claim_C2_update_clamps_to_world (b : Bird)
    (hh : b.height ≤ b.canvasHeight) :
    (0 ≤ (b.update).y ∧ (b.update).y ≤ b.canvasHeight - b.height) ∧
    (b.y + (b.velocity + b.gravity) + b.height > b.canvasHeight ∨
        b.y + (b.velocity + b.gravity) < 0 → (b.update).velocity = 0) := by
  simp only [Bird.update]
  split_ifs with h1 h2 h3
  · exfalso
    simp at h2
    linarith
  · refine ⟨⟨by simp <;> linarith, by simp <;> linarith⟩, fun _ => by simp⟩
  · refine ⟨⟨by simp <;> linarith, by simp <;> linarith⟩, fun _ => by simp⟩
  · simp at h3
    refine ⟨⟨by simp <;> linarith, by simp <;> linarith⟩, fun hc => ?_⟩
    rcases hc with hc | hc
    · exact absurd hc h1
    · exfalso
      linarith

/-- C2 witness: the game's actual bird (height 20 on the 700-high canvas)
stays inside `[0, 680]` after one update. -/
theorem claim_C2_witness :
    (Bird.make 400 700).height ≤ (Bird.make 400 700).canvasHeight ∧
    0 ≤ ((Bird.make 400 700).update).y ∧
    ((Bird.make 400 700).update).y ≤
      (Bird.make 400 700).canvasHeight - (Bird.make 400 700).height :=
  ⟨by norm_num [Bird.make],
   (claim_C2_update_clamps_to_world (Bird.make 400 700)
     (by norm_num [Bird.make])).1.1,
   (claim_C2_update_clamps_to_world (Bird.make 400 700)
     (by norm_num [Bird.make])).1.2⟩

/-- C1 counterexample: the constructor accepts any gap setting without
clamping, so with worldHeight = 700, gap = 500 and random draw 9/10 the
top height is 225 and `topHeight + gap = 725 > 700` (bottomHeight = -25). -/
theorem claim_C1_counterexample :
    0 ≤ (9 : ℚ) / 10 ∧ (9 : ℚ) / 10 < 1 ∧
    ¬ ((Pipe.make 400 700 400 (9 / 10)
          { pipeSpeed := 29 / 20, pipeVerticalGap := 500 }).topHeight +
        (Pipe.make 400 700 400 (9 / 10)
          { pipeSpeed := 29 / 20, pipeVerticalGap := 500 }).gap ≤ 700) := by
  refine ⟨by norm_num, by norm_num, ?_⟩
  norm_num [Pipe.make]

/-- C1 (amended).  `bottomY = topHeight + gap` and
`bottomHeight = worldHeight - bottomY` always hold; `60 ≤ topHeight` and
`topHeight + gap ≤ worldHeight` (hence `bottomHeight ≥ 0`) hold for every
random draw in [0,1) provided `worldHeight > 150` and
`gap ≤ 2·worldHeight/3 - 10`, which covers the game's actual settings
(700, 250) but not arbitrary gap settings. -/
theorem claim_C1_pipe_geometry (worldWidth worldHeight x r : ℚ)
    (s : PipeSettings) (hr0 : 0 ≤ r) (hr1 : r < 1) (hH : 150 < worldHeight)
    (hgap : s.pipeVerticalGap ≤ 2 * worldHeight / 3 - 10) :
    ((Pipe.make worldWidth worldHeight x r s).bottomY =
        (Pipe.make worldWidth worldHeight x r s).topHeight +
        (Pipe.make worldWidth worldHeight x r s).gap) ∧
    ((Pipe.make worldWidth worldHeight x r s).bottomHeight =
        worldHeight - (Pipe.make worldWidth worldHeight x r s).bottomY) ∧
    (60 ≤ (Pipe.make worldWidth worldHeight x r s).topHeight) ∧
    ((Pipe.make worldWidth worldHeight x r s).topHeight +
        (Pipe.make worldWidth worldHeight x r s).gap ≤ worldHeight) ∧
    (0 ≤ (Pipe.make worldWidth worldHeight x r s).bottomHeight) := by
  have hX : (0 : ℚ) < worldHeight / 3 - 50 := by linarith
  have h1 : (⌊r * (worldHeight / 3 - 50)⌋ : ℚ) ≤ r * (worldHeight / 3 - 50) :=
    Int.floor_le _
  have h2 : r * (worldHeight / 3 - 50) < worldHeight / 3 - 50 := by
    nlinarith
  have h0 : (0 : ℚ) ≤ r * (worldHeight / 3 - 50) := mul_nonneg hr0 hX.le
  have h3 : (0 : ℚ) ≤ (⌊r * (worldHeight / 3 - 50)⌋ : ℚ) := by
    exact_mod_cast Int.floor_nonneg.mpr h0
  refine ⟨rfl, rfl, ?_, ?_, ?_⟩ <;> simp only [Pipe.make] <;> linarith

/-- C1 witness: with the game's actual configuration (worldHeight 700,
default gap 250) and draw 1/2, the gap fits and the bottom segment is
non-negative. -/
theorem claim_C1_witness :
    (Pipe.make 400 700 400 (1 / 2) defaultSettings).topHeight +
      (Pipe.make 400 700 400 (1 / 2) defaultSettings).gap ≤ 700 ∧
    0 ≤ (Pipe.make 400 700 400 (1 / 2) defaultSettings).bottomHeight :=
  ⟨(claim_C1_pipe_geometry 400 700 400 (1 / 2) defaultSettings (by norm_num)
      (by norm_num) (by norm_num) (by norm_num [defaultSettings])).2.2.2.1,
   (claim_C1_pipe_geometry 400 700 400 (1 / 2) defaultSettings (by norm_num)
      (by norm_num) (by norm_num) (by norm_num [defaultSettings])).2.2.2.2⟩

theorem runOps_count_le (ops : List PipeOp) : ∀ p : Pipe,
    ((runOps p ops).1.count true) ≤ if p.passed then 0 else 1 := by
  induction ops with
  | nil =>
    intro p
    simp [runOps]
  | cons op ops ih =>
    intro p
    cases op with
    | move =>
      have h := ih p.update
      simpa [runOps, Pipe.update] using h
    | query bx =>
      by_cases hp : p.passed
      · have h := ih p
        simp only [runOps, Pipe.isPassed_of_passed p bx hp, hp, if_pos] at h ⊢
        simpa [List.count_cons] using h
      · have hp' : p.passed = false := by simp [hp]
        by_cases hc : p.x + p.width < bx
        · have h := ih { p with passed := true }
          simp only [runOps, Pipe.isPassed_fire p bx hp' hc] at h ⊢
          simp at h
          simp [List.count_cons, hp', h]
        · have h := ih p
          simp only [runOps, Pipe.isPassed_nofire p bx hc] at h ⊢
          simp [List.count_cons, hp'] at h ⊢
          omega

/-- C3.  `isPassed` is one-shot: across any sequence of lifetime events
(moves and queries) it returns true at most once (never, if the flag is
already set); a single call returns true exactly when the flag was false
and the bird is past the trailing edge; and the call sets the flag in
exactly that situation, never clearing it. -/
theorem claim_C3_isPassed_oneshot (p : Pipe) (ops : List PipeOp)
    (birdX : ℚ) :
    ((runOps p ops).1.count true ≤ if p.passed then 0 else 1) ∧
    ((p.isPassed birdX).1 = true ↔
      (p.passed = false ∧ p.x + p.width < birdX)) ∧
    ((p.isPassed birdX).2.passed =
      (p.passed || decide (p.x + p.width < birdX))) := by
  refine ⟨runOps_count_le ops p, ?_, ?_⟩
  · by_cases hp : p.passed
    · simp [Pipe.isPassed_of_passed p birdX hp, hp]
    · have hp' : p.passed = false := by simp [hp]
      by_cases hc : p.x + p.width < birdX
      · simp [Pipe.isPassed_fire p birdX hp' hc, hp', hc]
      · simp [Pipe.isPassed_nofire p birdX hc, hp', hc]
  · by_cases hp : p.passed
    · simp [Pipe.isPassed_of_passed p birdX hp, hp]
    · have hp' : p.passed = false := by simp [hp]
      by_cases hc : p.x + p.width < birdX
      · simp [Pipe.isPassed_fire p birdX hp' hc, hp', hc]
      · simp [Pipe.isPassed_nofire p birdX hc, hp', hc]

theorem score_ite (g2 : Game) :
    (if g2.checkCollisions then g2.gameOver else g2).score = g2.score := by
  cases h : g2.checkCollisions <;> simp [h, Game.gameOver]

theorem update_pipeGap (g : Game) (r : ℚ) :
    (g.update r).pipeGap = g.pipeGap := by
  unfold Game.update
  split
  · rfl
  · simp only [Game.gameOver]
    split <;> rfl

theorem update_frameCount_le (g : Game) (r : ℚ) :
    (g.update r).frameCount ≤ g.frameCount + 1 := by
  unfold Game.update
  split
  · exact Nat.le_succ _
  · simp only [Game.gameOver]
    split <;> exact Nat.le_refl _

theorem scorePipes_length (ps : List Pipe) (bx : ℚ) :
    ((scorePipes ps bx).1).length = ps.length := by
  induction ps with
  | nil => simp [scorePipes]
  | cons p ps ih => simp [scorePipes, ih]

theorem update_run_pipes (g : Game) (r : ℚ) (hrun : g.isRunning = true)
    (hover : g.isGameOver = false) :
    (g.update r).pipes =
      (scorePipes (g.spawnedPipes r) ((g.bird.update).x)).1 ∧
    (g.update r).frameCount = g.frameCount + 1 ∧
    (g.update r).bird = g.bird.update := by
  unfold Game.update
  rw [hrun, hover]
  simp only [Bool.not_true, Bool.false_or]
  rw [if_neg (by simp : ¬ (false = true))]
  refine ⟨?_, ?_, ?_⟩ <;> simp only [Game.gameOver] <;> split <;> rfl

theorem update_pipes_len (g : Game) (r : ℚ)
    (h : (g.frameCount + 1) % g.pipeGap ≠ 0) :
    (g.update r).pipes.length ≤ g.pipes.length := by
  have hsp : g.spawnedPipes r = g.movedPipes := by
    unfold Game.spawnedPipes
    rw [if_neg h]
  have hm : (g.movedPipes).length ≤ g.pipes.length := by
    unfold Game.movedPipes
    calc ((g.pipes.map Pipe.update).filter fun p => !p.isOffScreen).length
        ≤ (g.pipes.map Pipe.update).length := List.length_filter_le _ _
      _ = g.pipes.length := List.length_map _ _
  unfold Game.update
  split
  · exact Nat.le_refl _
  · simp only [Game.gameOver]
    split <;>
      (show ((scorePipes (g.spawnedPipes r) ((g.bird.update).x)).1).length ≤
          g.pipes.length
       rw [scorePipes_length, hsp]
       exact hm)

theorem iterUpdate_len_le_one (rs : List ℚ) : ∀ g : Game,
    g.pipeGap = 300 → g.pipes.length ≤ 1 → g.frameCount + rs.length ≤ 299 →
    (iterUpdate g rs).pipes.length ≤ 1 := by
  induction rs with
  | nil =>
    intro g _ h _
    simpa [iterUpdate] using h
  | cons r rs ih =>
    intro g hgap hlen hfc
    simp only [iterUpdate]
    simp only [List.length_cons] at hfc
    have hmod : (g.frameCount + 1) % g.pipeGap ≠ 0 := by
      rw [hgap, Nat.mod_eq_of_lt (by omega)]
      omega
    apply ih
    · rw [update_pipeGap, hgap]
    · exact le_trans (update_pipes_len g r hmod) hlen
    · have h2 := update_frameCount_le g r
      omega

theorem scorePipes_inv (ps : List Pipe) (bx : ℚ) :
    ∀ p ∈ (scorePipes ps bx).1, p.x + p.width < bx → p.passed = true := by
  induction ps with
  | nil => simp [scorePipes]
  | cons q ps ih =>
    intro p hmem hlt
    simp only [scorePipes, List.mem_cons] at hmem
    rcases hmem with hq | hrest
    · subst hq
      by_cases hp : q.passed
      · rw [Pipe.isPassed_of_passed q bx hp] at hlt ⊢
        exact hp
      · have hp' : q.passed = false := by simp [hp]
        by_cases hc : q.x + q.width < bx
        · rw [Pipe.isPassed_fire q bx hp' hc]
        · rw [Pipe.isPassed_nofire q bx hc] at hlt ⊢
          exact absurd hlt hc
    · exact ih p hrest hlt

/-- C4.  The score is 0 right after `startGame`; `update` is the identity
when the game is not running or already over; while running, one tick adds
to the score exactly the number of one-shot pass events fired by the
surviving pipes this tick; hence the score never decreases. -/
theorem claim_C4_score_dynamics (g : Game) (r rs : ℚ) :
    ((g.startGame rs).score = 0) ∧
    (g.isRunning = false ∨ g.isGameOver = true → g.update r = g) ∧
    (g.isRunning = true → g.isGameOver = false →
      (g.update r).score =
        g.score + (scorePipes (g.spawnedPipes r) ((g.bird.update).x)).2) ∧
    (g.score ≤ (g.update r).score) := by
  have h1 : (g.startGame rs).score = 0 := rfl
  have h2 : g.isRunning = false ∨ g.isGameOver = true → g.update r = g := by
    intro h
    rcases h with h | h <;> simp [Game.update, h]
  have h3 : g.isRunning = true → g.isGameOver = false →
      (g.update r).score =
        g.score + (scorePipes (g.spawnedPipes r) ((g.bird.update).x)).2 := by
    intro hrun hover
    unfold Game.update
    rw [hrun, hover]
    simp only [Bool.not_true, Bool.false_or]
    rw [if_neg (by simp : ¬ (false = true))]
    simp only [score_ite]
  refine ⟨h1, h2, h3, ?_⟩
  by_cases hrun : g.isRunning
  · by_cases hover : g.isGameOver
    · rw [h2 (Or.inr hover)]
    · rw [h3 hrun (by simp [hover])]
      exact Nat.le_add_right _ _
  · rw [h2 (Or.inl (by simp [hrun]))]

/-- C4 witness: on the concrete started game the score is 0, one tick's
score is the base score plus the fired pass count, and the score does not
decrease. -/
theorem claim_C4_witness :
    (testGame.startGame 0).score = 0 ∧
    (testGame.update 0).score =
      testGame.score +
        (scorePipes (testGame.spawnedPipes 0) ((testGame.bird.update).x)).2 ∧
    testGame.score ≤ (testGame.update 0).score :=
  ⟨(claim_C4_score_dynamics testGame 0 0).1,
   (claim_C4_score_dynamics testGame 0 0).2.2.1 rfl rfl,
   (claim_C4_score_dynamics testGame 0 0).2.2.2⟩

/-- C6.  From `startGame` (tick counter 0, one pipe pre-spawned) no second
pipe exists after up to 299 ticks with spawnInterval 300; and on the tick
where the counter reaches 300 in a running game, the modulo spawn fires,
adding one pipe to the surviving moved pipes. -/
theorem claim_C6_first_spawn_at_300 (g g2 : Game) (r r2 : ℚ) (rs : List ℚ)
    (hgap : g.pipeGap = 300) (hlen : rs.length ≤ 299)
    (hrun : g2.isRunning = true) (hover : g2.isGameOver = false)
    (hgap2 : g2.pipeGap = 300) (hfc : g2.frameCount = 299) :
    (iterUpdate (g.startGame r) rs).pipes.length ≤ 1 ∧
    (g2.update r2).pipes.length = g2.movedPipes.length + 1 ∧
    (g2.update r2).frameCount = 300 := by
  have hspawn : g2.spawnedPipes r2 =
      g2.movedPipes ++ [Pipe.make g2.canvasWidth g2.canvasHeight
        g2.canvasWidth r2 defaultSettings] := by
    unfold Game.spawnedPipes
    rw [if_pos (by rw [hgap2, hfc])]
  obtain ⟨hp, hf, _⟩ := update_run_pipes g2 r2 hrun hover
  refine ⟨?_, ?_, ?_⟩
  · apply iterUpdate_len_le_one
    · exact hgap
    · show (1 : Nat) ≤ 1
      exact Nat.le_refl 1
    · show 0 + rs.length ≤ 299
      simpa using hlen
  · rw [hp, scorePipes_length, hspawn]
    simp
  · rw [hf, hfc]

/-- C6 witness: the concrete game (pipeGap 300) keeps a single pipe over an
empty tick list, and the concrete running game at counter 299 spawns on the
next tick, reaching counter 300. -/
theorem claim_C6_witness :
    (iterUpdate ((Game.make 400 700).startGame 0) []).pipes.length ≤ 1 ∧
    (testGame299.update 0).pipes.length = testGame299.movedPipes.length + 1 ∧
    (testGame299.update 0).frameCount = 300 :=
  claim_C6_first_spawn_at_300 (Game.make 400 700) testGame299 0 0 []
    rfl (by simp) rfl rfl rfl rfl

/-- C8.  Whenever a bird update fires a clamp (the integrated position would
cross the floor or the ceiling), the orchestrator's floor/ceiling test in
`checkCollisions` on the updated bird returns true in the same tick: the
two paths agree. -/
theorem claim_C8_clamp_implies_collision (b : Bird) (g : Game)
    (hH : b.canvasHeight = g.canvasHeight)
    (hbird : g.bird = b.update)
    (hclamp : b.y + (b.velocity + b.gravity) + b.height > b.canvasHeight ∨
        b.y + (b.velocity + b.gravity) < 0) :
    g.checkCollisions = true := by
  have key : (b.update).y + (b.update).height ≥ b.canvasHeight ∨
      (b.update).y ≤ 0 := by
    simp only [Bird.update]
    split_ifs with h1 h2 h3
    · right
      simp
    · left
      simp
    · right
      simp
    · simp at h3
      rcases hclamp with hc | hc
      · exact absurd hc h1
      · exfalso
        linarith
  have hcond : g.bird.y + g.bird.height ≥ g.canvasHeight ∨ g.bird.y ≤ 0 := by
    rw [hbird, ← hH]
    exact key
  unfold Game.checkCollisions
  rw [if_pos hcond]

/-- C8 witness: the concrete bird at y = 690 clamps to the floor on its next
update, and the game holding that updated bird reports a collision. -/
theorem claim_C8_witness :
    testFloorBird.y + (testFloorBird.velocity + testFloorBird.gravity) +
        testFloorBird.height > testFloorBird.canvasHeight ∧
    testGame8.checkCollisions = true :=
  ⟨by norm_num [testFloorBird, Bird.make],
   claim_C8_clamp_implies_collision testFloorBird testGame8 rfl rfl
     (Or.inl (by norm_num [testFloorBird, Bird.make]))⟩

/-- C10.  While running, each tick re-establishes the invariant that every
pipe whose trailing edge is left of the bird has fired its one-shot flag
(the scoring loop runs after moving, filtering and spawning); and under
that invariant, any pipe the off-screen filter would remove next tick —
given each pipe's per-tick speed is below the bird's fixed x — already has
`passed = true`.  So no pipe leaves the screen unscored. -/
theorem claim_C10_offscreen_implies_passed (g : Game) (r : ℚ)
    (hrun : g.isRunning = true) (hover : g.isGameOver = false)
    (hinv : passedInv g) (hspeed : ∀ p ∈ g.pipes, p.speed < g.bird.x) :
    passedInv (g.update r) ∧
    (∀ p ∈ g.pipes, (p.update).isOffScreen = true → p.passed = true) := by
  obtain ⟨hp, _, hb⟩ := update_run_pipes g r hrun hover
  constructor
  · intro p hmem hlt
    rw [hp] at hmem
    rw [hb] at hlt
    exact scorePipes_inv _ _ p hmem hlt
  · intro p hmem hoff
    have h1 : p.x - p.speed + p.width < 0 := by
      simpa [Pipe.update, Pipe.isOffScreen] using hoff
    have h2 : p.x + p.width < g.bird.x :=
      lt_trans (by linarith) (hspeed p hmem)
    exact hinv p hmem h2

/-- C10 witness: in the concrete running game holding one pipe far off the
left edge, that pipe is removable by the filter and indeed already passed. -/
theorem claim_C10_witness :
    (testGonePipe.update).isOffScreen = true ∧ testGonePipe.passed = true := by
  have hoff : (testGonePipe.update).isOffScreen = true := by
    norm_num [testGonePipe, Pipe.make, Pipe.update, Pipe.isOffScreen,
      defaultSettings]
  refine ⟨hoff, ?_⟩
  exact (claim_C10_offscreen_implies_passed testGame10 0 rfl rfl
      (fun p hp hlt => by
        simp [testGame10] at hp
        subst hp
        rfl)
      (fun p hp => by
        simp [testGame10] at hp
        subst hp
        norm_num [testGonePipe, Pipe.make, defaultSettings, testGame10,
          Game.make, Bird.make])).2
    testGonePipe (by simp [testGame10]) hoff
